import Mathlib

/-!
Verification of the voice-conversation client (src/unnamed/part_005,
the ConversationalAI component).

Two shallow embeddings are developed, both translated directly from the
source:

* a sample-level model of the voice-activity detector: the body of
  detectVoice (lines 291-345), acting on the refs it reads and writes
  (isSpeakingRef, speechStartTimeRef, and the local lastSpeechTime);
* an event-level model of the whole component: one state record holding
  the component refs and React state, and one step function per
  externally visible event (VAD confirmations, network completions,
  playback completions, session start and end), each transcribed from
  the corresponding source function (startRecording, stopRecording,
  stopAIAudio, playAIAudio, sendAudioToBackend, cleanupAudio,
  startConversation, endConversation).

Machine integers do not occur.  Times are Nat milliseconds (Date.now()).
Energy levels (normalized RMS values in [0,1]) are represented exactly in
units of one ten-thousandth of full scale, so the source thresholds
0.0150 and 0.0070 become 150 and 70; every claim is about the order of
levels against the thresholds, which this scaling preserves exactly.
-/

/-! ### Sample-level model of the voice activity detector -/

/-- SPEECH_THRESHOLD from the source: 0.0150 normalized RMS,
represented in ten-thousandths of full scale. -/
def SPEECH_THRESHOLD : ℕ := 150

/-- SILENCE_THRESHOLD from the source: 0.0070 normalized RMS,
represented in ten-thousandths of full scale. -/
def SILENCE_THRESHOLD : ℕ := 70

/-- MIN_SPEECH_DURATION from the source (100 ms). -/
def MIN_SPEECH_DURATION : ℕ := 100

/-- SILENCE_DURATION from the source (700 ms). -/
def SILENCE_DURATION : ℕ := 700

/-- The two discrete events the detector produces: confirmed speech start
(the code path that calls startRecording) and confirmed speech end (the
code path that calls stopRecording). -/
inductive VadEvent where
  | speechStart
  | speechEnd
  deriving DecidableEq, Repr

/-- The mutable state read and written by the VAD part of detectVoice:
isSpeakingRef.current, speechStartTimeRef.current, and the closure-local
lastSpeechTime (initialized to 0).  The closure-local lastSilenceTime is
used only for a debug log and is omitted. -/
structure VadState where
  speaking : Bool
  candidate : Option ℕ
  lastSpeech : ℕ
  deriving DecidableEq, Repr

/-- Initial VAD state: not speaking, no candidate start, lastSpeechTime 0. -/
def vadInit : VadState := ⟨false, none, 0⟩

/-- One iteration of the VAD branch logic of detectVoice at time `now`
(Date.now(), ms) with the computed RMS `rms`, returning the updated state
and the emitted event, if any.  Transcription of source lines 316-341:
if rms > SPEECH_THRESHOLD, record lastSpeechTime := now, and when not
already speaking either record the candidate start or, once
now - candidate > MIN_SPEECH_DURATION, set speaking and emit the start
event; else if rms < SILENCE_THRESHOLD and speaking and
now - lastSpeechTime > SILENCE_DURATION, clear speaking and the candidate
and emit the end event; energies in between change nothing. -/
def detectVoice (st : VadState) (now : ℕ) (rms : ℕ) : VadState × Option VadEvent :=
  if SPEECH_THRESHOLD < rms then
    if st.speaking then ({ st with lastSpeech := now }, none)
    else
      match st.candidate with
      | none => ({ st with lastSpeech := now, candidate := some now }, none)
      | some c =>
          if MIN_SPEECH_DURATION < now - c then
            ({ st with lastSpeech := now, speaking := true }, some VadEvent.speechStart)
          else ({ st with lastSpeech := now }, none)
  else if rms < SILENCE_THRESHOLD then
    if st.speaking then
      if SILENCE_DURATION < now - st.lastSpeech then
        ({ st with speaking := false, candidate := none }, some VadEvent.speechEnd)
      else (st, none)
    else (st, none)
  else (st, none)

/-- Run the VAD over a list of timed samples, collecting the emitted
events tagged with the time of the sample that produced them. -/
def vadSteps (st : VadState) : List (ℕ × ℕ) → VadState × List (ℕ × VadEvent)
  | [] => (st, [])
  | (t, r) :: rest =>
      let p := detectVoice st t r
      let q := vadSteps p.1 rest
      (q.1, (p.2.map fun e => (t, e)).toList ++ q.2)

/-- Time of the first sample whose energy exceeds the speech threshold. -/
def firstExceedTime : List (ℕ × ℕ) → Option ℕ
  | [] => none
  | (t, r) :: rest => if SPEECH_THRESHOLD < r then some t else firstExceedTime rest

/-- Sample times are strictly increasing. -/
def sortedTimes (samples : List (ℕ × ℕ)) : Prop :=
  List.Pairwise (fun p q : ℕ × ℕ => p.1 < q.1) samples

instance (samples : List (ℕ × ℕ)) : Decidable (sortedTimes samples) := by
  unfold sortedTimes
  infer_instance

/-! ### Event-level model of the component

The component state collects the refs and the React state variables of
the ConversationalAI component that the claims are about.  Recorder and
audio-element objects created by the code are given identities from
per-pool allocation counters; `recPlaying i` models recorder `i` being in
the MediaRecorder state 'recording', and `audioPlaying a` models audio
element `a` currently playing (a live playback handle producing output).
React state updates are modeled at their settled values, since every
claim is about the state between events of the single-threaded event
loop.  The conversation history is modeled by its length, an error
message by its presence, and the captured audio of a recording by whether
the assembled blob is nonempty (an environment fact, so it is carried by
the events that stop a recorder). -/

/-- Pointwise update of a Bool-valued table. -/
def upd (f : ℕ → Bool) (k : ℕ) (v : Bool) : ℕ → Bool :=
  fun x => if x = k then v else f x

/-- The component state: refs (sessionIdRef, sessionActiveRef,
mediaStreamRef, mediaRecorderRef, currentAudioRef, isSpeakingRef,
speechStartTimeRef, audioUnlockedRef) and React state (session.currentAudio,
isSpeaking, isUserSpeaking, isProcessing, conversationHistory length,
error presence).  sessionActiveRef and session.isActive are written in
lockstep by the source and are merged into `sessionActive`; `pendingReqs`
counts submit-utterance requests issued and not yet resolved; `stopCalls`
counts invocations of stopAIAudio. -/
structure AppState where
  sessionId : Option ℕ
  sessionActive : Bool
  mediaStream : Bool
  nextRec : ℕ
  recPlaying : ℕ → Bool
  mediaRecorderRef : Option ℕ
  nextAudio : ℕ
  audioPlaying : ℕ → Bool
  currentAudioRef : Option ℕ
  sessionAudio : Option ℕ
  isSpeakingRef : Bool
  speechStartTime : Option ℕ
  isUserSpeaking : Bool
  isSpeaking : Bool
  isProcessing : Bool
  pendingReqs : ℕ
  historyCount : ℕ
  error : Bool
  stopCalls : ℕ
  audioUnlocked : Bool

/-- The state before any event: nothing allocated, nothing set. -/
def initState : AppState where
  sessionId := none
  sessionActive := false
  mediaStream := false
  nextRec := 0
  recPlaying := fun _ => false
  mediaRecorderRef := none
  nextAudio := 0
  audioPlaying := fun _ => false
  currentAudioRef := none
  sessionAudio := none
  isSpeakingRef := false
  speechStartTime := none
  isUserSpeaking := false
  isSpeaking := false
  isProcessing := false
  pendingReqs := 0
  historyCount := 0
  error := false
  stopCalls := 0
  audioUnlocked := false

/-- mediaRecorderRef.current?.state === 'recording': the recorder the ref
points at is currently recording, i.e. a RecordingSession is open. -/
def refRecording (s : AppState) : Bool :=
  match s.mediaRecorderRef with
  | some i => s.recPlaying i
  | none => false

/-- stopAIAudio (source lines 109-133): pause the audio element held by
currentAudioRef (clearing its onended handler) and null the ref; also
pause session.currentAudio as a fallback; setIsSpeaking(false); clear
session.currentAudio.  The pauses are wrapped in try/catch in the source,
so the function is total and never surfaces an error; it does not touch
the error state. -/
def stopAIAudio (s : AppState) : AppState :=
  { s with
    stopCalls := s.stopCalls + 1
    audioPlaying := fun x =>
      if some x = s.currentAudioRef ∨ some x = s.sessionAudio then false
      else s.audioPlaying x
    currentAudioRef := none
    sessionAudio := none
    isSpeaking := false }

/-- startRecording (source lines 244-271): return without effect when no
media stream is present or the recorder referenced by mediaRecorderRef is
already in the 'recording' state; otherwise clear the chunk buffer,
create a fresh MediaRecorder on the stream, install its handlers, store
it in mediaRecorderRef, start it, and setIsUserSpeaking(true). -/
def startRecording (s : AppState) : AppState :=
  if s.mediaStream && !refRecording s then
    { s with
      nextRec := s.nextRec + 1
      recPlaying := upd s.recPlaying s.nextRec true
      mediaRecorderRef := some s.nextRec
      isUserSpeaking := true }
  else s

/-- The mediaRecorder.onstop handler (source lines 260-266) together with
the issue of the request by sendAudioToBackend (lines 136-160): assemble
the chunks into a blob; if the blob is nonempty, call sendAudioToBackend,
which returns early when sessionIdRef is null and otherwise sets
isProcessing, clears the error, and posts the clip (one more request in
flight).  The resolution of the request is a separate event. -/
def recorderOnStop (blobNonempty : Bool) (s : AppState) : AppState :=
  if blobNonempty then
    match s.sessionId with
    | some _ =>
        { s with isProcessing := true, error := false, pendingReqs := s.pendingReqs + 1 }
    | none => s
  else s

/-- stopRecording (source lines 274-280): if the referenced recorder is
recording, stop it and setIsUserSpeaking(false); stopping fires the
onstop handler. -/
def stopRecording (blobNonempty : Bool) (s : AppState) : AppState :=
  match s.mediaRecorderRef with
  | some i =>
      if s.recPlaying i then
        recorderOnStop blobNonempty
          { s with recPlaying := upd s.recPlaying i false, isUserSpeaking := false }
      else s
  | none => s

/-- playAIAudio (source lines 190-241): first stopAIAudio (stop any
existing audio before playing the new one), then build the blob and a new
Audio element, fire the best-effort ai-speaking notification (ignored),
setIsSpeaking(true), store the element in currentAudioRef and
session.currentAudio, and play it.  An asynchronous play failure or the
natural end of playback are separate events. -/
def playAIAudio (s : AppState) : AppState :=
  let s1 := stopAIAudio s
  { s1 with
    nextAudio := s1.nextAudio + 1
    audioPlaying := upd s1.audioPlaying s1.nextAudio true
    currentAudioRef := some s1.nextAudio
    sessionAudio := some s1.nextAudio
    isSpeaking := true }

/-- The recorder-stop statement of cleanupAudio (source lines 391-393):
stop the referenced recorder if it is recording, which fires its onstop
handler — and that handler runs while sessionIdRef is still set, because
endConversation clears the ref only after awaiting the completion
request.  It does not touch mediaRecorderRef or isUserSpeaking. -/
def cleanupStopRecorder (blobNonempty : Bool) (s : AppState) : AppState :=
  match s.mediaRecorderRef with
  | some i =>
      if s.recPlaying i then
        recorderOnStop blobNonempty { s with recPlaying := upd s.recPlaying i false }
      else s
  | none => s

/-- cleanupAudio (source lines 384-409): cancel the animation frame (the
VAD loop halts), stop the referenced recorder if it is recording, stop
the media stream tracks, close the audio context, and reset isSpeakingRef
and speechStartTimeRef.  It does not touch the session refs. -/
def cleanupAudio (blobNonempty : Bool) (s : AppState) : AppState :=
  { cleanupStopRecorder blobNonempty s with
    mediaStream := false, isSpeakingRef := false, speechStartTime := none }

/-- startConversation (source lines 412-451): setError(null) and
unlockAudio(); POST the start request — on failure throw into the catch
block, which only records the error; on success store the session id and
set the active flags and fresh React session state, then await
initializeAudio (getUserMedia, audio context, analyser, VAD loop) — if it
throws, the catch block again only records the error, leaving the
already-set session state in place.  `ok` is the start request succeeding
and `deviceOk` is initializeAudio succeeding. -/
def startConversation (ok deviceOk : Bool) (sid : ℕ) (s : AppState) : AppState :=
  let s1 := { s with error := false, audioUnlocked := true }
  match ok with
  | false => { s1 with error := true }
  | true =>
      let s2 :=
        { s1 with
          sessionId := some sid
          sessionActive := true
          sessionAudio := none
          historyCount := 0 }
      match deviceOk with
      | false => { s2 with error := true }
      | true => { s2 with mediaStream := true }

/-- endConversation (source lines 454-481): return if sessionIdRef is
null; otherwise clear sessionActiveRef, run cleanupAudio (whose
recorder-stop fires onstop, still seeing the old sessionIdRef) and
stopAIAudio, await the best-effort completion request, then clear
sessionIdRef and reset the React session state. -/
def endConversation (blobNonempty : Bool) (s : AppState) : AppState :=
  match s.sessionId with
  | none => s
  | some _ =>
      let s1 := { s with sessionActive := false }
      let s2 := cleanupAudio blobNonempty s1
      let s3 := stopAIAudio s2
      { s3 with sessionId := none, sessionAudio := none }

/-- The externally visible events that drive the component: session
start/end calls (with the success of their fallible steps and, where a
recorder may be stopped, whether its assembled blob is nonempty), the two
VAD confirmations, resolution of a submit-utterance request (ok with or
without synthesized audio, or failure), and completion or asynchronous
failure of the current playback. -/
inductive Ev where
  | startSession (ok deviceOk : Bool) (sid : ℕ)
  | endSession (blobNonempty : Bool)
  | speechStart
  | speechEnd (blobNonempty : Bool)
  | responseOk (hasAudio : Bool)
  | responseErr
  | playbackEnded
  | playbackFailed (a : ℕ)
  deriving DecidableEq, Repr

/-- One event step.  speechStart is the detectVoice path at lines
320-328 (set isSpeakingRef, stopAIAudio to interrupt the AI, then
startRecording); speechEnd is the path at lines 334-340 (clear
isSpeakingRef and speechStartTimeRef, then stopRecording); both run only
while the VAD loop is active, i.e. sessionActiveRef is set.  responseOk
is the continuation of sendAudioToBackend after a successful fetch
(lines 162-180): append the user and AI entries to the conversation
history and, when the response carries audio, playAIAudio; the finally
block clears isProcessing.  responseErr is the catch branch (lines
181-186): record the error; finally clears isProcessing.  playbackEnded
is the onended handler of the current audio element (lines 228-240);
playbackFailed is the rejection handler of audio.play() (lines 218-226),
which also records an error.  The onended handler of an element no
longer held by currentAudioRef was detached (set to null) by
stopAIAudio, so playbackEnded acts only on the current element; the
play() rejection handler, however, is a promise .catch that cannot be
detached: it fires for its own element `a` even after stopAIAudio paused
it or a newer playAIAudio replaced the ref (pausing a pending play
rejects its promise), and the handler body nulls currentAudioRef and
session.currentAudio and clears isSpeaking unconditionally, whichever
element is current by then. -/
def step (e : Ev) (s : AppState) : AppState :=
  match e with
  | Ev.startSession ok dev sid => startConversation ok dev sid s
  | Ev.endSession b => endConversation b s
  | Ev.speechStart =>
      if s.sessionActive && !s.isSpeakingRef then
        startRecording (stopAIAudio { s with isSpeakingRef := true })
      else s
  | Ev.speechEnd b =>
      if s.sessionActive && s.isSpeakingRef then
        stopRecording b { s with isSpeakingRef := false, speechStartTime := none }
      else s
  | Ev.responseOk hasAudio =>
      match s.pendingReqs with
      | 0 => s
      | n + 1 =>
          let s1 := { s with pendingReqs := n, historyCount := s.historyCount + 2 }
          let s2 := if hasAudio then playAIAudio s1 else s1
          { s2 with isProcessing := false }
  | Ev.responseErr =>
      match s.pendingReqs with
      | 0 => s
      | n + 1 => { s with pendingReqs := n, error := true, isProcessing := false }
  | Ev.playbackEnded =>
      match s.currentAudioRef with
      | some a =>
          { s with
            audioPlaying := upd s.audioPlaying a false
            currentAudioRef := none
            sessionAudio := none
            isSpeaking := false }
      | none => s
  | Ev.playbackFailed a =>
      if a < s.nextAudio then
        { s with
          audioPlaying := upd s.audioPlaying a false
          currentAudioRef := none
          sessionAudio := none
          isSpeaking := false
          error := true }
      else s

/-- Run an interleaving of events from the initial state. -/
def run (evs : List Ev) : AppState :=
  evs.foldl (fun s e => step e s) initState

/-- The status label (source lines 496-502): Ready when no session is
active, else Processing, AI Speaking, You Speaking, Listening in that
priority order. -/
inductive Label where
  | ready
  | processing
  | aiSpeaking
  | userSpeaking
  | listening
  deriving DecidableEq, Repr

/-- statusLabel, the turn state the component reports. -/
def statusLabel (s : AppState) : Label :=
  if !s.sessionActive then Label.ready
  else if s.isProcessing then Label.processing
  else if s.isSpeaking then Label.aiSpeaking
  else if s.isUserSpeaking then Label.userSpeaking
  else Label.listening

/-! ### base64ToBlob (source lines 91-106)

The atob decode is a host primitive, so its output — the string of byte
characters — is the input of the model, as the list of its character
codes (each in [0,256) for valid base64 input).  The function slices this
string into 512-character chunks, maps each character to its code in a
Uint8Array (which stores values mod 256), and builds a Blob from the
chunk arrays with the given MIME type; the Blob is its parts
concatenated. -/

/-- The chunk loop of base64ToBlob: for offset 0, 512, 1024, ... take the
slice of up to 512 character codes and turn it into a byte array. -/
def base64ToBlobChunks (s : List ℕ) : List (List ℕ) :=
  if h : s = [] then []
  else (s.take 512).map (fun b => b % 256) :: base64ToBlobChunks (s.drop 512)
termination_by s.length
decreasing_by
  simp only [List.length_drop]
  have : 0 < s.length := List.length_pos.mpr h
  omega

/-- base64ToBlob: the assembled Blob, as its byte sequence and MIME type. -/
def base64ToBlob (s : List ℕ) (mimeType : String) : List ℕ × String :=
  ((base64ToBlobChunks s).flatten, mimeType)

/-! ### Invariants and claim statements -/

/-- At most one RecordingSession is open: any two recording recorders
coincide. -/
def AtMostOneRecording (s : AppState) : Prop :=
  ∀ i j, s.recPlaying i = true → s.recPlaying j = true → i = j

/-- At most one PlaybackHandle is live: any two playing audio elements
coincide. -/
def AtMostOnePlayback (s : AppState) : Prop :=
  ∀ i j, s.audioPlaying i = true → s.audioPlaying j = true → i = j

/-- Every recording recorder is the one mediaRecorderRef points at. -/
def RecInv (s : AppState) : Prop :=
  ∀ i, s.recPlaying i = true → s.mediaRecorderRef = some i

/-- Unallocated recorder ids are not recording. -/
def FreshRec (s : AppState) : Prop :=
  ∀ i, s.nextRec ≤ i → s.recPlaying i = false

/-- The inductive invariant of the event system, for the recording side.
No playback-side analogue holds: a stale play() rejection handler nulls
currentAudioRef while a newer element is still playing (see the C1
counterexample). -/
def AppInv (s : AppState) : Prop :=
  RecInv s ∧ FreshRec s

/-- Claim C1 as stated: for every interleaving of events, at most one
RecordingSession is open and at most one PlaybackHandle is live. -/
def C1ClaimStatement : Prop :=
  ∀ evs : List Ev, AtMostOneRecording (run evs) ∧ AtMostOnePlayback (run evs)

/-- The interleaving refuting the playback half of C1: two requests in
flight (through the unguarded Processing state of C3), both resolve with
audio, so element 0 is created, then element 1 replaces it — the pause
of element 0 rejects its pending play() promise — and element 0's
rejection handler then nulls currentAudioRef while element 1 plays on,
unreferenced; the next turn's playAIAudio stops nothing and creates
element 2, leaving elements 1 and 2 playing concurrently. -/
def traceC1 : List Ev :=
  [Ev.startSession true true 1, Ev.speechStart, Ev.speechEnd true,
    Ev.speechStart, Ev.speechEnd true, Ev.responseOk true, Ev.responseOk true,
    Ev.playbackFailed 0, Ev.speechStart, Ev.speechEnd true, Ev.responseOk true]

/-- Claim C3 as stated: in every execution, a RecordingSession is never
open while a submit-utterance request is in flight, and at most one
request is in flight at any time. -/
def C3ClaimStatement : Prop :=
  ∀ evs : List Ev,
    (refRecording (run evs) = false ∨ (run evs).pendingReqs = 0) ∧
      (run evs).pendingReqs ≤ 1

/-- Claim C4 as stated, for an emission directly reachable from the
initial VAD state: if the sample after prefix `pre` emits SpeechStart,
then (a) the emission is no earlier than MIN_SPEECH_DURATION after the
earliest sample of `pre` above the speech threshold, and (b) no sample of
`pre` that comes time-wise after an above-threshold sample of `pre` had
energy at or below the speech threshold (no dip into or below the
hysteresis dead zone between candidate start and emission). -/
def C4ClaimStatement : Prop :=
  ∀ (pre : List (ℕ × ℕ)) (t0 r0 : ℕ),
    sortedTimes (pre ++ [(t0, r0)]) →
    (detectVoice (vadSteps vadInit pre).1 t0 r0).2 = some VadEvent.speechStart →
    (∀ tj rj, (tj, rj) ∈ pre → SPEECH_THRESHOLD < rj →
        (∀ p ∈ pre, SPEECH_THRESHOLD < p.2 → tj ≤ p.1) →
        tj + MIN_SPEECH_DURATION ≤ t0) ∧
      (∀ q ∈ pre, (∃ p ∈ pre, SPEECH_THRESHOLD < p.2 ∧ p.1 < q.1) →
        SPEECH_THRESHOLD < q.2)

/-- Claim C5 as stated: if the sample after prefix `pre` emits SpeechEnd,
the emission is no earlier than SILENCE_DURATION after every sample of
`pre` whose energy was above the silence threshold. -/
def C5ClaimStatement : Prop :=
  ∀ (pre : List (ℕ × ℕ)) (t0 r0 : ℕ),
    sortedTimes (pre ++ [(t0, r0)]) →
    (detectVoice (vadSteps vadInit pre).1 t0 r0).2 = some VadEvent.speechEnd →
    ∀ ti ri, (ti, ri) ∈ pre → SILENCE_THRESHOLD < ri →
      ti + SILENCE_DURATION ≤ t0

/-- Claim C8 as stated: whenever any step of session start fails, no
partial state is left active — the active flag and the session id are not
left set and the state is not Listening. -/
def C8ClaimStatement : Prop :=
  ∀ (ok dev : Bool) (sid : ℕ), ok = false ∨ dev = false →
    (startConversation ok dev sid initState).sessionActive = false ∧
      (startConversation ok dev sid initState).sessionId = none ∧
      statusLabel (startConversation ok dev sid initState) ≠ Label.listening

/-- A session brought up successfully, recording the first utterance:
recorder 0 is recording. -/
def sRec : AppState := run [Ev.startSession true true 1, Ev.speechStart]

/-- A full first turn: the utterance was submitted and the response with
audio arrived, so audio element 0 is playing (the AISpeaking state). -/
def sPlay : AppState :=
  run [Ev.startSession true true 1, Ev.speechStart, Ev.speechEnd true, Ev.responseOk true]

/-- A session with one submit-utterance request still in flight (the
Processing state): recording closed, pendingReqs = 1. -/
def sProc : AppState :=
  run [Ev.startSession true true 1, Ev.speechStart, Ev.speechEnd true]

/-! ### Properties of the voice activity detector -/

/-- A sample above the speech threshold always records its time as the
most recent above-threshold time. -/
theorem detectVoice_lastSpeech_loud {st : VadState} {t r : ℕ}
    (h1 : SPEECH_THRESHOLD < r) : (detectVoice st t r).1.lastSpeech = t := by
  unfold detectVoice
  rw [if_pos h1]
  cases hsp : st.speaking
  · cases hc : st.candidate
    · simp [hc]
    · simp only [hsp, Bool.false_eq_true, if_false, hc]
      split <;> rfl
  · simp [hsp]

/-- Each step either stamps the current time into lastSpeech or leaves it
unchanged. -/
theorem detectVoice_lastSpeech {st : VadState} {t r : ℕ} :
    (detectVoice st t r).1.lastSpeech = t ∨
      (detectVoice st t r).1.lastSpeech = st.lastSpeech := by
  by_cases h1 : SPEECH_THRESHOLD < r
  · exact Or.inl (detectVoice_lastSpeech_loud h1)
  · right
    unfold detectVoice
    rw [if_neg h1]
    by_cases h2 : r < SILENCE_THRESHOLD
    · rw [if_pos h2]
      cases hsp : st.speaking
      · simp
      · simp only [if_true]
        split <;> rfl
    · rw [if_neg h2]

/-- A SpeechStart emission requires: not already speaking, a recorded
candidate start, and more than MIN_SPEECH_DURATION elapsed since it. -/
theorem emitStart_elim {st : VadState} {t r : ℕ}
    (h : (detectVoice st t r).2 = some VadEvent.speechStart) :
    st.speaking = false ∧
      ∃ c, st.candidate = some c ∧ MIN_SPEECH_DURATION < t - c := by
  obtain ⟨sp, cand, ls⟩ := st
  unfold detectVoice at h
  by_cases h1 : SPEECH_THRESHOLD < r
  · rw [if_pos h1] at h
    cases sp
    · cases cand with
      | none => simp at h
      | some c =>
          by_cases hdur : MIN_SPEECH_DURATION < t - c
          · exact ⟨rfl, c, rfl, hdur⟩
          · simp [hdur] at h
    · simp at h
  · rw [if_neg h1] at h
    by_cases h2 : r < SILENCE_THRESHOLD
    · rw [if_pos h2] at h
      cases sp
      · simp at h
      · by_cases hdur : SILENCE_DURATION < t - ls
        · simp [hdur] at h
        · simp [hdur] at h
    · rw [if_neg h2] at h
      simp at h

/-- A SpeechEnd emission requires: currently speaking, the sample below
the silence threshold, and more than SILENCE_DURATION elapsed since the
last sample above the speech threshold. -/
theorem emitEnd_elim {st : VadState} {t r : ℕ}
    (h : (detectVoice st t r).2 = some VadEvent.speechEnd) :
    st.speaking = true ∧ r < SILENCE_THRESHOLD ∧
      SILENCE_DURATION < t - st.lastSpeech := by
  obtain ⟨sp, cand, ls⟩ := st
  unfold detectVoice at h
  by_cases h1 : SPEECH_THRESHOLD < r
  · rw [if_pos h1] at h
    cases sp
    · cases cand with
      | none => simp at h
      | some c =>
          by_cases hdur : MIN_SPEECH_DURATION < t - c
          · simp [hdur] at h
          · simp [hdur] at h
    · simp at h
  · rw [if_neg h1] at h
    by_cases h2 : r < SILENCE_THRESHOLD
    · rw [if_pos h2] at h
      cases sp
      · simp at h
      · by_cases hdur : SILENCE_DURATION < t - ls
        · exact ⟨rfl, h2, hdur⟩
        · simp [hdur] at h
    · rw [if_neg h2] at h
      simp at h

/-- While not speaking with a recorded candidate start, a step that emits
nothing keeps the candidate and stays not speaking (a dip below the
threshold does not clear the candidate). -/
theorem detectVoice_keeps_candidate {st : VadState} {t r c : ℕ}
    (hsp : st.speaking = false) (hc : st.candidate = some c)
    (h : (detectVoice st t r).2 = none) :
    (detectVoice st t r).1.speaking = false ∧
      (detectVoice st t r).1.candidate = some c := by
  obtain ⟨sp, cand, ls⟩ := st
  simp only at hsp hc
  subst hsp
  subst hc
  unfold detectVoice at h ⊢
  by_cases h1 : SPEECH_THRESHOLD < r
  · rw [if_pos h1] at h ⊢
    by_cases hdur : MIN_SPEECH_DURATION < t - c
    · simp [hdur] at h
    · simp [hdur]
  · rw [if_neg h1] at h ⊢
    by_cases h2 : r < SILENCE_THRESHOLD
    · rw [if_pos h2] at h ⊢
      simp
    · rw [if_neg h2] at h ⊢
      simp

/-- While not speaking with no candidate start, a step stays not speaking
and records this sample as the candidate exactly when it is above the
speech threshold. -/
theorem detectVoice_sets_candidate {st : VadState} {t r : ℕ}
    (hsp : st.speaking = false) (hc : st.candidate = none) :
    (detectVoice st t r).2 = none ∧
      (detectVoice st t r).1.speaking = false ∧
      (detectVoice st t r).1.candidate =
        (if SPEECH_THRESHOLD < r then some t else none) := by
  obtain ⟨sp, cand, ls⟩ := st
  simp only at hsp hc
  subst hsp
  subst hc
  unfold detectVoice
  by_cases h1 : SPEECH_THRESHOLD < r
  · rw [if_pos h1, if_pos h1]
    simp
  · rw [if_neg h1, if_neg h1]
    by_cases h2 : r < SILENCE_THRESHOLD
    · rw [if_pos h2]
      simp
    · rw [if_neg h2]
      simp

/-- Over a quiet prefix (no emissions) starting not speaking with
candidate `c` recorded, the VAD stays not speaking and keeps `c`. -/
theorem vadQuiet_some (pre : List (ℕ × ℕ)) :
    ∀ (st : VadState) (c : ℕ), st.speaking = false → st.candidate = some c →
      (vadSteps st pre).2 = [] →
      (vadSteps st pre).1.speaking = false ∧
        (vadSteps st pre).1.candidate = some c := by
  induction pre with
  | nil => intro st c hsp hc _; exact ⟨hsp, hc⟩
  | cons hd rest ih =>
      obtain ⟨t, r⟩ := hd
      intro st c hsp hc hnil
      simp only [vadSteps] at hnil ⊢
      have hev : (detectVoice st t r).2 = none := by
        cases hE : (detectVoice st t r).2 with
        | none => rfl
        | some e => rw [hE] at hnil; simp at hnil
      rw [hev] at hnil
      simp only [Option.map_none, Option.map_none', Option.toList_none,
        List.nil_append] at hnil
      have hstep := detectVoice_keeps_candidate hsp hc hev
      exact ih (detectVoice st t r).1 c hstep.1 hstep.2 hnil

/-- Over a quiet prefix (no emissions) starting from a state that is not
speaking and has no candidate, the VAD ends not speaking with its
candidate equal to the time of the first sample above the speech
threshold: dips below the threshold never clear a recorded candidate. -/
theorem vadQuiet_candidate (pre : List (ℕ × ℕ)) :
    ∀ st : VadState, st.speaking = false → st.candidate = none →
      (vadSteps st pre).2 = [] →
      (vadSteps st pre).1.speaking = false ∧
        (vadSteps st pre).1.candidate = firstExceedTime pre := by
  induction pre with
  | nil => intro st hsp hc _; exact ⟨hsp, hc⟩
  | cons hd rest ih =>
      obtain ⟨t, r⟩ := hd
      intro st hsp hc hnil
      have hstep := @detectVoice_sets_candidate st t r hsp hc
      simp only [vadSteps] at hnil ⊢
      rw [hstep.1] at hnil
      simp only [Option.map_none, Option.map_none', Option.toList_none,
        List.nil_append] at hnil
      unfold firstExceedTime
      by_cases h1 : SPEECH_THRESHOLD < r
      · have hcand : (detectVoice st t r).1.candidate = some t := by
          rw [hstep.2.2, if_pos h1]
        rw [if_pos h1]
        exact vadQuiet_some rest (detectVoice st t r).1 t hstep.2.1 hcand hnil
      · have hcand : (detectVoice st t r).1.candidate = none := by
          rw [hstep.2.2, if_neg h1]
        rw [if_neg h1]
        exact ih (detectVoice st t r).1 hstep.2.1 hcand hnil

/-- lastSpeech never drops below a bound that also bounds all remaining
sample times. -/
theorem vadSteps_lastSpeech_lb (pre : List (ℕ × ℕ)) :
    ∀ (st : VadState) (c : ℕ), c ≤ st.lastSpeech → (∀ q ∈ pre, c ≤ q.1) →
      c ≤ (vadSteps st pre).1.lastSpeech := by
  induction pre with
  | nil => intro st c hle _; exact hle
  | cons hd rest ih =>
      obtain ⟨t, r⟩ := hd
      intro st c hle hall
      simp only [vadSteps]
      have hstep : c ≤ (detectVoice st t r).1.lastSpeech := by
        rcases @detectVoice_lastSpeech st t r with hE | hE
        · rw [hE]; exact hall (t, r) (by simp)
        · rw [hE]; exact hle
      exact ih (detectVoice st t r).1 c hstep fun q hq => hall q (by simp [hq])

/-- With strictly increasing sample times, after processing the prefix
every sample above the speech threshold lies at or before the recorded
lastSpeech time. -/
theorem vadSteps_loud_le_lastSpeech (pre : List (ℕ × ℕ)) :
    ∀ st : VadState, sortedTimes pre →
      ∀ ti ri, (ti, ri) ∈ pre → SPEECH_THRESHOLD < ri →
        ti ≤ (vadSteps st pre).1.lastSpeech := by
  induction pre with
  | nil => intro st _ ti ri hmem; exact absurd hmem (List.not_mem_nil _)
  | cons hd rest ih =>
      obtain ⟨ta, ra⟩ := hd
      intro st hsort ti ri hmem hloud
      rw [sortedTimes, List.pairwise_cons] at hsort
      simp only [vadSteps]
      rcases List.mem_cons.mp hmem with hE | hE
      · have hti : ti = ta := congrArg Prod.fst hE
        have hri : ri = ra := congrArg Prod.snd hE
        rw [hti]
        have hstep : (detectVoice st ta ra).1.lastSpeech = ta :=
          detectVoice_lastSpeech_loud (hri ▸ hloud)
        exact vadSteps_lastSpeech_lb rest (detectVoice st ta ra).1 ta (le_of_eq hstep.symm)
          fun q hq => le_of_lt (hsort.1 q hq)
      · exact ih (detectVoice st ta ra).1 hsort.2 ti ri hE hloud

/-- C4 (corrected): the claim as stated is false on the code.  In the run
0.02 RMS at t=0 (candidate start recorded), a dip to 0.001 RMS at t=100
(into and below the dead zone), then 0.02 RMS at t=216, detectVoice emits
SpeechStart at t=216 — the candidate start is not cleared by the dip, so
the no-dip conjunct of the claim fails. -/
theorem c4_counterexample : ¬ C4ClaimStatement := by
  intro h
  have h2 :=
    (h [(0, 200), (100, 10)] 216 200 (by decide) (by decide)).2
      (100, 10) (by decide) ⟨(0, 200), by decide⟩
  exact absurd h2 (by decide)

/-- C4 (amended): for any sample sequence on which the VAD has emitted
nothing yet, a SpeechStart emitted at the next sample comes strictly more
than MIN_SPEECH_DURATION after the first sample whose energy exceeded the
speech threshold — the timing half of the claim holds; the no-dip half
does not, since dips never clear the candidate start. -/
theorem c4_amended (pre : List (ℕ × ℕ)) (t0 r0 : ℕ)
    (hquiet : (vadSteps vadInit pre).2 = [])
    (hemit : (detectVoice (vadSteps vadInit pre).1 t0 r0).2 = some VadEvent.speechStart) :
    ∃ c, firstExceedTime pre = some c ∧ c + MIN_SPEECH_DURATION < t0 := by
  have hq := vadQuiet_candidate pre vadInit rfl rfl hquiet
  obtain ⟨-, c, hc, hdur⟩ := emitStart_elim hemit
  refine ⟨c, ?_, ?_⟩
  · rw [← hq.2, hc]
  · unfold MIN_SPEECH_DURATION at hdur ⊢
    omega

/-- C4 witness: a concrete quiet prefix and emission. -/
theorem c4_amended_witness :
    ∃ c, firstExceedTime [(0, 200)] = some c ∧ c + MIN_SPEECH_DURATION < 150 :=
  c4_amended [(0, 200)] 150 200 (by decide) (by decide)

/-- C5 (corrected): the claim as stated is false on the code.  Speaking
starts at t=150; a dead-zone sample of 0.01 RMS (above the 0.007 silence
threshold) arrives at t=300 without refreshing lastSpeechTime, and a
0.001 RMS sample at t=900 emits SpeechEnd because 900−150 > 700 — only
600 ms after the last above-silence-threshold sample at t=300, not the
700 the claim requires. -/
theorem c5_counterexample : ¬ C5ClaimStatement := by
  intro h
  have h2 :=
    h [(0, 200), (150, 200), (300, 100)] 900 10 (by decide) (by decide)
      300 100 (by decide) (by decide)
  exact absurd h2 (by decide)

/-- C5 (amended): with strictly increasing sample times, a SpeechEnd
emitted at the sample after prefix `pre` comes strictly more than
SILENCE_DURATION after every sample of `pre` whose energy was above the
SPEECH threshold (the code holds silence against lastSpeechTime, which
only samples above the speech threshold refresh — not the silence
threshold the claim names). -/
theorem c5_amended (pre : List (ℕ × ℕ)) (t0 r0 : ℕ)
    (hsort : sortedTimes pre)
    (hemit : (detectVoice (vadSteps vadInit pre).1 t0 r0).2 = some VadEvent.speechEnd)
    (ti ri : ℕ) (hmem : (ti, ri) ∈ pre) (hloud : SPEECH_THRESHOLD < ri) :
    ti + SILENCE_DURATION < t0 := by
  have h1 := vadSteps_loud_le_lastSpeech pre vadInit hsort ti ri hmem hloud
  have h2 := (emitEnd_elim hemit).2.2
  unfold SILENCE_DURATION at h2 ⊢
  omega

/-- C5 witness: a concrete emission more than 700 ms after the loud
samples. -/
theorem c5_amended_witness : (0 : ℕ) + SILENCE_DURATION < 900 :=
  c5_amended [(0, 200), (150, 200)] 900 10 (by decide) (by decide) 0 200
    (by decide) (by decide)

/-! ### Properties of the component event model -/

/-- C8 (corrected): the claim as stated is false on the code.  When the
start request succeeds but acquiring the capture device fails
(initializeAudio throws), the catch block of startConversation only
records the error: the session-active flag and the session id stay set
and the reported state is Listening. -/
theorem c8_counterexample : ¬ C8ClaimStatement := by
  intro h
  have h2 := h true false 0 (Or.inr rfl)
  exact absurd h2.1 (by decide)

/-- C8 (amended): if the start request itself fails, nothing was set yet,
so the session stays inactive with no id, status Ready, and a surfaced
error; but if device acquisition fails after a successful start request,
the session is not unwound — the active flag and the session id remain
set, no media stream is live, an error is surfaced, and the status shows
Listening. -/
theorem c8_amended (sid : ℕ) (dev : Bool) :
    ((startConversation false dev sid initState).sessionId = none ∧
      (startConversation false dev sid initState).sessionActive = false ∧
      (startConversation false dev sid initState).mediaStream = false ∧
      (startConversation false dev sid initState).error = true ∧
      statusLabel (startConversation false dev sid initState) = Label.ready) ∧
    ((startConversation true false sid initState).sessionId = some sid ∧
      (startConversation true false sid initState).sessionActive = true ∧
      (startConversation true false sid initState).mediaStream = false ∧
      (startConversation true false sid initState).error = true ∧
      statusLabel (startConversation true false sid initState) = Label.listening) :=
  ⟨⟨rfl, rfl, rfl, rfl, rfl⟩, ⟨rfl, rfl, rfl, rfl, rfl⟩⟩

/-- C2 (code bug): endConversation during an open recording transmits the
clip instead of discarding it.  In the run startSession, speechStart,
endSession (with nonempty captured audio), cleanupAudio stops the
recorder, whose onstop handler runs while sessionIdRef is still set (the
ref is cleared only after the awaited completion request), so
sendAudioToBackend issues a submit-utterance request: afterwards one
request is in flight, even though the device was released, the session id
cleared, and the final state is Ready/Idle. -/
theorem c2_code_bug_eval :
    (run [Ev.startSession true true 1, Ev.speechStart, Ev.endSession true]).pendingReqs
        = 1 ∧
      (run [Ev.startSession true true 1, Ev.speechStart, Ev.endSession true]).mediaStream
        = false ∧
      (run [Ev.startSession true true 1, Ev.speechStart, Ev.endSession true]).sessionId
        = none ∧
      refRecording (run [Ev.startSession true true 1, Ev.speechStart, Ev.endSession true])
        = false ∧
      statusLabel (run [Ev.startSession true true 1, Ev.speechStart, Ev.endSession true])
        = Label.ready := by
  decide

/-- C9 (code bug): a submit-utterance response that resolves after
endConversation is not ignored.  In the run startSession, speechStart,
speechEnd (request issued), endSession, responseOk-with-audio, the late
response still appends two conversation-history entries, sets isSpeaking,
and starts a live playback, although the session is over (sessionActive
false, sessionId none). -/
theorem c9_code_bug_eval :
    (run [Ev.startSession true true 1, Ev.speechStart, Ev.speechEnd true,
        Ev.endSession false, Ev.responseOk true]).sessionActive = false ∧
      (run [Ev.startSession true true 1, Ev.speechStart, Ev.speechEnd true,
        Ev.endSession false, Ev.responseOk true]).sessionId = none ∧
      (run [Ev.startSession true true 1, Ev.speechStart, Ev.speechEnd true,
        Ev.endSession false, Ev.responseOk true]).historyCount = 2 ∧
      (run [Ev.startSession true true 1, Ev.speechStart, Ev.speechEnd true,
        Ev.endSession false, Ev.responseOk true]).isSpeaking = true ∧
      (run [Ev.startSession true true 1, Ev.speechStart, Ev.speechEnd true,
        Ev.endSession false, Ev.responseOk true]).currentAudioRef = some 0 ∧
      (run [Ev.startSession true true 1, Ev.speechStart, Ev.speechEnd true,
        Ev.endSession false, Ev.responseOk true]).audioPlaying 0 = true := by
  decide

/-- C3 (corrected): the claim as stated is false on the code.  In the run
startSession, speechStart, speechEnd (request now in flight), speechStart,
the voice loop opens a new RecordingSession while the prior
submit-utterance request has not resolved: detectVoice guards only on
sessionActiveRef and isSpeakingRef, never on isProcessing. -/
theorem c3_counterexample : ¬ C3ClaimStatement := by
  intro h
  have h2 :=
    (h [Ev.startSession true true 1, Ev.speechStart, Ev.speechEnd true,
      Ev.speechStart]).1
  rcases h2 with h2 | h2 <;> exact absurd h2 (by decide)

/-- C3 (amended): a SpeechStart while a submit-utterance request is in
flight is not ignored: from any state with the session active, the voice
loop not in its speaking phase, a live media stream, no open recording,
and a pending request, the confirmed SpeechStart opens a new
RecordingSession with the request still unresolved — and when that
recording ends, a second request is issued, so two submit-utterance
requests are in flight at once. -/
theorem c3_amended (s : AppState) (sid : ℕ)
    (h1 : s.sessionActive = true) (h2 : s.isSpeakingRef = false)
    (h3 : s.mediaStream = true) (h4 : refRecording s = false)
    (h5 : 0 < s.pendingReqs) (h6 : s.sessionId = some sid) :
    refRecording (step Ev.speechStart s) = true ∧
      (step Ev.speechStart s).pendingReqs = s.pendingReqs ∧
      (step (Ev.speechEnd true) (step Ev.speechStart s)).pendingReqs
        = s.pendingReqs + 1 := by
  have e2 : refRecording (stopAIAudio { s with isSpeakingRef := true })
      = refRecording s := rfl
  have hguard : ((stopAIAudio { s with isSpeakingRef := true }).mediaStream
      && !refRecording (stopAIAudio { s with isSpeakingRef := true })) = true := by
    have e1 : (stopAIAudio { s with isSpeakingRef := true }).mediaStream
        = s.mediaStream := rfl
    rw [e1, e2, h3, h4]
    rfl
  have hstep : step Ev.speechStart s
      = startRecording (stopAIAudio { s with isSpeakingRef := true }) := by
    simp [step, h1, h2]
  rw [hstep]
  unfold startRecording
  rw [if_pos hguard]
  refine ⟨by simp [refRecording, upd], rfl, ?_⟩
  simp [step, stopRecording, recorderOnStop, stopAIAudio, refRecording, upd, h1, h6]

/-- C3 witness: the Processing state sProc has one request in flight, and
the SpeechStart then SpeechEnd open and submit a second utterance. -/
theorem c3_amended_witness :
    refRecording (step Ev.speechStart sProc) = true ∧
      (step Ev.speechStart sProc).pendingReqs = sProc.pendingReqs ∧
      (step (Ev.speechEnd true) (step Ev.speechStart sProc)).pendingReqs
        = sProc.pendingReqs + 1 :=
  c3_amended sProc 1 (by decide) (by decide) (by decide) (by decide)
    (by decide) (by decide)

/-- C7 (confirmed): stopAIAudio is idempotent on the observable playback
state — calling it twice leaves exactly the state of calling it once
(playback handle ref, isSpeaking flag, session.currentAudio, which
elements are playing, and the error message) — and calling it when
nothing is playing (no handle in either ref, isSpeaking clear) is a
no-op on that state and never records an error. -/
theorem c7_stop_idempotent (s : AppState) :
    ((stopAIAudio (stopAIAudio s)).currentAudioRef
        = (stopAIAudio s).currentAudioRef ∧
      (stopAIAudio (stopAIAudio s)).isSpeaking = (stopAIAudio s).isSpeaking ∧
      (stopAIAudio (stopAIAudio s)).sessionAudio = (stopAIAudio s).sessionAudio ∧
      (stopAIAudio (stopAIAudio s)).audioPlaying = (stopAIAudio s).audioPlaying ∧
      (stopAIAudio (stopAIAudio s)).error = (stopAIAudio s).error) ∧
    (s.currentAudioRef = none → s.sessionAudio = none → s.isSpeaking = false →
      (stopAIAudio s).currentAudioRef = s.currentAudioRef ∧
        (stopAIAudio s).isSpeaking = s.isSpeaking ∧
        (stopAIAudio s).sessionAudio = s.sessionAudio ∧
        (stopAIAudio s).audioPlaying = s.audioPlaying ∧
        (stopAIAudio s).error = s.error) := by
  constructor
  · refine ⟨rfl, rfl, rfl, ?_, rfl⟩
    funext x
    simp [stopAIAudio]
  · intro hca hsa hsp
    refine ⟨hca.symm, hsp.symm, hsa.symm, ?_, rfl⟩
    funext x
    simp [stopAIAudio, hca, hsa]

/-- C7 witness: at the initial state nothing is playing, and stopAIAudio
leaves the playback observables untouched. -/
theorem c7_witness :
    (stopAIAudio initState).currentAudioRef = initState.currentAudioRef ∧
      (stopAIAudio initState).audioPlaying = initState.audioPlaying :=
  ⟨((c7_stop_idempotent initState).2 rfl rfl rfl).1,
    ((c7_stop_idempotent initState).2 rfl rfl rfl).2.2.2.1⟩

/-- C6 (confirmed): on a confirmed SpeechStart while a playback handle is
live (barge-in), the step is exactly startRecording after stopAIAudio:
stopAIAudio is invoked exactly once (stopCalls rises by one), and in the
intermediate state — before the new RecordingSession is opened — the old
element is already paused, the handle discarded, and no recording open;
afterwards a recording is open, the old element is still silent, and the
reported state is UserSpeaking. -/
theorem c6_barge_in (s : AppState) (a : ℕ)
    (h1 : s.currentAudioRef = some a) (h2 : s.audioPlaying a = true)
    (h3 : s.sessionActive = true) (h4 : s.isSpeakingRef = false)
    (h5 : s.mediaStream = true) (h6 : refRecording s = false)
    (h7 : s.isProcessing = false) :
    step Ev.speechStart s
        = startRecording (stopAIAudio { s with isSpeakingRef := true }) ∧
      (stopAIAudio { s with isSpeakingRef := true }).audioPlaying a = false ∧
      (stopAIAudio { s with isSpeakingRef := true }).currentAudioRef = none ∧
      refRecording (stopAIAudio { s with isSpeakingRef := true }) = false ∧
      (step Ev.speechStart s).stopCalls = s.stopCalls + 1 ∧
      refRecording (step Ev.speechStart s) = true ∧
      (step Ev.speechStart s).audioPlaying a = false ∧
      (step Ev.speechStart s).isSpeaking = false ∧
      statusLabel (step Ev.speechStart s) = Label.userSpeaking := by
  have e2 : refRecording (stopAIAudio { s with isSpeakingRef := true })
      = refRecording s := rfl
  have hguard : ((stopAIAudio { s with isSpeakingRef := true }).mediaStream
      && !refRecording (stopAIAudio { s with isSpeakingRef := true })) = true := by
    have e1 : (stopAIAudio { s with isSpeakingRef := true }).mediaStream
        = s.mediaStream := rfl
    rw [e1, e2, h5, h6]
    rfl
  have hstep : step Ev.speechStart s
      = startRecording (stopAIAudio { s with isSpeakingRef := true }) := by
    simp [step, h3, h4]
  have hmidplay : (stopAIAudio { s with isSpeakingRef := true }).audioPlaying a
      = false := by
    simp [stopAIAudio, h1]
  refine ⟨hstep, hmidplay, rfl, e2.trans h6, ?_, ?_, ?_, ?_, ?_⟩ <;>
    rw [hstep]
  · unfold startRecording
    rw [if_pos hguard]
    rfl
  · unfold startRecording
    rw [if_pos hguard]
    simp [refRecording, upd]
  · unfold startRecording
    rw [if_pos hguard]
    exact hmidplay
  · unfold startRecording
    rw [if_pos hguard]
    rfl
  · unfold startRecording
    rw [if_pos hguard]
    simp [statusLabel, stopAIAudio, h3, h7]

/-- C6 witness: the concrete AISpeaking state sPlay with its live
element 0. -/
theorem c6_barge_in_witness :
    step Ev.speechStart sPlay
        = startRecording (stopAIAudio { sPlay with isSpeakingRef := true }) ∧
      (stopAIAudio { sPlay with isSpeakingRef := true }).audioPlaying 0 = false ∧
      (stopAIAudio { sPlay with isSpeakingRef := true }).currentAudioRef = none ∧
      refRecording (stopAIAudio { sPlay with isSpeakingRef := true }) = false ∧
      (step Ev.speechStart sPlay).stopCalls = sPlay.stopCalls + 1 ∧
      refRecording (step Ev.speechStart sPlay) = true ∧
      (step Ev.speechStart sPlay).audioPlaying 0 = false ∧
      (step Ev.speechStart sPlay).isSpeaking = false ∧
      statusLabel (step Ev.speechStart sPlay) = Label.userSpeaking :=
  c6_barge_in sPlay 0 (by decide) (by decide) (by decide) (by decide)
    (by decide) (by decide) (by decide)

/-- The invariant is preserved by any state change that leaves the
recorder pool, mediaRecorderRef, and the recorder allocation counter
untouched. -/
theorem appInv_of_eqs {s s2 : AppState} (h : AppInv s)
    (hrec : s2.recPlaying = s.recPlaying)
    (href : s2.mediaRecorderRef = s.mediaRecorderRef)
    (hnr : s2.nextRec = s.nextRec) : AppInv s2 := by
  obtain ⟨hR, hFR⟩ := h
  constructor
  · intro i hi
    rw [hrec] at hi
    rw [href]
    exact hR i hi
  · intro i hi
    rw [hrec]
    rw [hnr] at hi
    exact hFR i hi

/-- stopAIAudio touches only playback state and preserves the invariant. -/
theorem appInv_stopAIAudio {s : AppState} (h : AppInv s) :
    AppInv (stopAIAudio s) :=
  appInv_of_eqs h rfl rfl rfl

/-- Stopping recorder `i` preserves the invariant. -/
theorem appInv_pauseRec {s : AppState} (i : ℕ) (h : AppInv s) :
    AppInv { s with recPlaying := upd s.recPlaying i false } := by
  constructor
  · intro j hj
    show s.mediaRecorderRef = some j
    by_cases hji : j = i
    · exfalso
      rw [hji] at hj
      simp [upd] at hj
    · exact h.1 j (by simpa [upd, hji] using hj)
  · intro j hj
    show upd s.recPlaying i false j = false
    by_cases hji : j = i
    · simp [upd, hji]
    · simp only [upd, if_neg hji]
      exact h.2 j hj

/-- recorderOnStop preserves the invariant. -/
theorem appInv_recorderOnStop {b : Bool} {s : AppState} (h : AppInv s) :
    AppInv (recorderOnStop b s) := by
  unfold recorderOnStop
  cases b
  · exact h
  · cases hs : s.sessionId
    · exact h
    · exact appInv_of_eqs h rfl rfl rfl

/-- stopRecording preserves the invariant. -/
theorem appInv_stopRecording {b : Bool} {s : AppState} (h : AppInv s) :
    AppInv (stopRecording b s) := by
  unfold stopRecording
  split
  next i heq =>
    by_cases hp : s.recPlaying i = true
    · rw [if_pos hp]
      exact appInv_recorderOnStop
        (appInv_of_eqs (s := { s with recPlaying := upd s.recPlaying i false })
          (appInv_pauseRec i h) rfl rfl rfl)
    · rw [if_neg hp]
      exact h
  next heq => exact h

/-- startRecording preserves the invariant: when the guard passes,
nothing was recording, and the fresh recorder becomes the unique
referenced one. -/
theorem appInv_startRecording {s : AppState} (h : AppInv s) :
    AppInv (startRecording s) := by
  unfold startRecording
  by_cases hg : (s.mediaStream && !refRecording s) = true
  · rw [if_pos hg]
    have hnorec : ∀ i, s.recPlaying i = false := by
      intro i
      cases hb : s.recPlaying i
      · rfl
      · exfalso
        have href := h.1 i hb
        have hrr : refRecording s = true := by
          unfold refRecording
          rw [href]
          exact hb
        rw [hrr] at hg
        simp at hg
    constructor
    · intro i hi
      show some s.nextRec = some i
      by_cases hieq : i = s.nextRec
      · rw [hieq]
      · exfalso
        have hi2 : s.recPlaying i = true := by simpa [upd, hieq] using hi
        rw [hnorec i] at hi2
        exact Bool.false_ne_true hi2
    · intro i hi
      have hi2 : s.nextRec + 1 ≤ i := hi
      have hne : ¬ i = s.nextRec := by omega
      show upd s.recPlaying s.nextRec true i = false
      simp only [upd, if_neg hne]
      exact h.2 i (by omega)
  · rw [if_neg hg]
    exact h

/-- playAIAudio touches only playback state and preserves the
invariant. -/
theorem appInv_playAIAudio {s : AppState} (h : AppInv s) :
    AppInv (playAIAudio s) :=
  appInv_of_eqs (s := s) h rfl rfl rfl

/-- cleanupStopRecorder preserves the invariant. -/
theorem appInv_cleanupStopRecorder {b : Bool} {s : AppState} (h : AppInv s) :
    AppInv (cleanupStopRecorder b s) := by
  unfold cleanupStopRecorder
  split
  next i heq =>
    by_cases hp : s.recPlaying i = true
    · rw [if_pos hp]
      exact appInv_recorderOnStop (appInv_pauseRec i h)
    · rw [if_neg hp]
      exact h
  next heq => exact h

/-- cleanupAudio preserves the invariant. -/
theorem appInv_cleanupAudio {b : Bool} {s : AppState} (h : AppInv s) :
    AppInv (cleanupAudio b s) :=
  appInv_of_eqs (s := cleanupStopRecorder b s) (appInv_cleanupStopRecorder h)
    rfl rfl rfl

/-- startConversation preserves the invariant. -/
theorem appInv_startConversation {ok dev : Bool} {sid : ℕ} {s : AppState}
    (h : AppInv s) : AppInv (startConversation ok dev sid s) := by
  unfold startConversation
  cases ok
  · exact appInv_of_eqs h rfl rfl rfl
  · cases dev
    · exact appInv_of_eqs h rfl rfl rfl
    · exact appInv_of_eqs h rfl rfl rfl

/-- endConversation preserves the invariant. -/
theorem appInv_endConversation {b : Bool} {s : AppState} (h : AppInv s) :
    AppInv (endConversation b s) := by
  unfold endConversation
  split
  next heq => exact h
  next v heq =>
    exact appInv_of_eqs
      (s := stopAIAudio (cleanupAudio b { s with sessionActive := false }))
      (appInv_stopAIAudio (appInv_cleanupAudio
        (appInv_of_eqs (s := s) h rfl rfl rfl)))
      rfl rfl rfl

/-- Every event preserves the invariant. -/
theorem appInv_step (e : Ev) {s : AppState} (h : AppInv s) :
    AppInv (step e s) := by
  cases e with
  | startSession ok dev sid => exact appInv_startConversation h
  | endSession b => exact appInv_endConversation h
  | speechStart =>
      simp only [step]
      by_cases hg : (s.sessionActive && !s.isSpeakingRef) = true
      · rw [if_pos hg]
        exact appInv_startRecording
          (appInv_stopAIAudio (appInv_of_eqs h rfl rfl rfl))
      · rw [if_neg hg]
        exact h
  | speechEnd b =>
      simp only [step]
      by_cases hg : (s.sessionActive && s.isSpeakingRef) = true
      · rw [if_pos hg]
        exact appInv_stopRecording (appInv_of_eqs h rfl rfl rfl)
      · rw [if_neg hg]
        exact h
  | responseOk hasAudio =>
      simp only [step]
      split
      next heq => exact h
      next n heq =>
        have h1 : AppInv { s with
            pendingReqs := n
            historyCount := s.historyCount + 2 } :=
          appInv_of_eqs (s := s) h rfl rfl rfl
        cases hasAudio
        · exact appInv_of_eqs
            (s := { s with pendingReqs := n, historyCount := s.historyCount + 2 })
            h1 rfl rfl rfl
        · exact appInv_of_eqs
            (s := playAIAudio
              { s with pendingReqs := n, historyCount := s.historyCount + 2 })
            (appInv_playAIAudio h1) rfl rfl rfl
  | responseErr =>
      simp only [step]
      split
      next heq => exact h
      next n heq => exact appInv_of_eqs (s := s) h rfl rfl rfl
  | playbackEnded =>
      simp only [step]
      split
      next a heq => exact appInv_of_eqs (s := s) h rfl rfl rfl
      next heq => exact h
  | playbackFailed a =>
      simp only [step]
      by_cases hg : a < s.nextAudio
      · rw [if_pos hg]
        exact appInv_of_eqs (s := s) h rfl rfl rfl
      · rw [if_neg hg]
        exact h

/-- The initial state satisfies the invariant. -/
theorem appInv_init : AppInv initState := by
  constructor
  · intro i hi
    exact nomatch hi
  · intro i _
    rfl

/-- Every reachable state satisfies the invariant. -/
theorem appInv_run (evs : List Ev) : AppInv (run evs) := by
  suffices hgen : ∀ (l : List Ev) (s : AppState), AppInv s →
      AppInv (List.foldl (fun s e => step e s) s l) by
    exact hgen evs initState appInv_init
  intro l
  induction l with
  | nil => intro s h; exact h
  | cons e rest ih =>
      intro s h
      exact ih (step e s) (appInv_step e h)

/-- C1 (corrected): the claim as stated is false on the code.  Along
traceC1, two submit-utterance requests are in flight at once (the
unguarded Processing state of C3); both responses carry audio, so
playAIAudio creates element 0 and then element 1, pausing element 0 —
which rejects element 0's still-pending play() promise.  Element 0's
rejection handler (source lines 218-226) then nulls currentAudioRef and
session.currentAudio unconditionally, although element 1 is current and
playing: element 1 plays on unreferenced, the next stopAIAudio stops
nothing, and the following playAIAudio creates element 2 — elements 1
and 2 play concurrently. -/
theorem c1_counterexample : ¬ C1ClaimStatement := by
  intro h
  have h2 := (h traceC1).2 1 2 (by decide) (by decide)
  exact absurd h2 (by decide)

/-- C1 (amended): for every interleaving of events, at most one
RecordingSession is open in the reached state, and startRecording
returns without effect when the referenced recorder is already in the
'recording' state; playAIAudio holds the newly created element in
currentAudioRef and the previously referenced element is no longer
playing — but at most one PlaybackHandle live does not hold for all
interleavings, because a stale play() rejection handler can null
currentAudioRef while a newer element is still playing, after which
stopAIAudio silences nothing. -/
theorem c1_amended (evs : List Ev) :
    AtMostOneRecording (run evs) ∧
      (∀ s : AppState, refRecording s = true → startRecording s = s) ∧
      (∀ (s : AppState) (a : ℕ), s.currentAudioRef = some a →
        (playAIAudio s).currentAudioRef = some s.nextAudio ∧
          (¬ a = s.nextAudio → (playAIAudio s).audioPlaying a = false)) := by
  have hinv := appInv_run evs
  refine ⟨?_, ?_, ?_⟩
  · intro i j hi hj
    have e1 := hinv.1 i hi
    have e2 := hinv.1 j hj
    rw [e1] at e2
    exact Option.some.inj e2
  · intro s hr
    unfold startRecording
    rw [hr]
    simp
  · intro s a hca
    refine ⟨rfl, ?_⟩
    intro hne
    have hne2 : ¬ a = (stopAIAudio s).nextAudio := hne
    show upd (stopAIAudio s).audioPlaying (stopAIAudio s).nextAudio true a = false
    simp only [upd, if_neg hne2]
    show (if some a = s.currentAudioRef ∨ some a = s.sessionAudio then false
      else s.audioPlaying a) = false
    rw [if_pos (Or.inl hca.symm)]

/-- C1 witness: recorder 0 recording in sRec is the unique open one;
startRecording is a no-op on sRec; playAIAudio on the AISpeaking state
sPlay silences element 0. -/
theorem c1_amended_witness :
    (0 : ℕ) = 0 ∧ startRecording sRec = sRec ∧
      (playAIAudio sPlay).audioPlaying 0 = false :=
  ⟨(c1_amended [Ev.startSession true true 1, Ev.speechStart]).1 0 0
      (by decide) (by decide),
    (c1_amended []).2.1 sRec (by decide),
    ((c1_amended []).2.2 sPlay 0 (by decide)).2 (by decide)⟩

/-- The 512-character chunks reassemble to the decoded byte string. -/
theorem base64ToBlobChunks_flatten (s : List ℕ) (h : ∀ b ∈ s, b < 256) :
    (base64ToBlobChunks s).flatten = s := by
  by_cases hnil : s = []
  · rw [base64ToBlobChunks, dif_pos hnil, hnil]
    rfl
  · rw [base64ToBlobChunks, dif_neg hnil, List.flatten_cons,
      base64ToBlobChunks_flatten (s.drop 512)
        (fun b hb => h b (List.mem_of_mem_drop hb))]
    have hmap : (s.take 512).map (fun b => b % 256) = s.take 512 := by
      have hid : ∀ b ∈ s.take 512, b % 256 = b := fun b hb =>
        Nat.mod_eq_of_lt (h b (List.mem_of_mem_take hb))
      calc (s.take 512).map (fun b => b % 256)
          = (s.take 512).map id := List.map_congr_left hid
        _ = s.take 512 := List.map_id _
    rw [hmap]
    exact List.take_append_drop 512 s
termination_by s.length
decreasing_by
  simp only [List.length_drop]
  have hpos := List.length_pos.mpr hnil
  omega

/-- C10 (confirmed): for every decoded byte-character string (all codes
below 256, as atob guarantees for valid base64 input) and every MIME
type, base64ToBlob yields exactly the decoded bytes in order with that
MIME type: the 512-chunk slicing loses nothing and preserves order, for
all lengths including those not divisible by 512 and the empty string. -/
theorem c10_base64ToBlob (s : List ℕ) (m : String) (h : ∀ b ∈ s, b < 256) :
    base64ToBlob s m = (s, m) := by
  unfold base64ToBlob
  rw [base64ToBlobChunks_flatten s h]

/-- C10 witness: a concrete five-byte decode. -/
theorem c10_witness :
    base64ToBlob [72, 101, 108, 108, 111] "audio/mpeg"
      = ([72, 101, 108, 108, 111], "audio/mpeg") :=
  c10_base64ToBlob [72, 101, 108, 108, 111] "audio/mpeg" (by decide)
